import Mathlib

/-!
Verification development for the core pipeline of `wgsl_to_wgpu`
(`src/wgsl_bindgen/src/bindgen/bindgen.rs` and `src/wgsl_bindgen/src/lib.rs`).

The Rust code is shallowly embedded: pure functions become Lean functions,
the interactions with the external shader-composition capability (`naga_oil`)
and the file system are made explicit by passing their responses as
parameters and by returning a trace of the calls performed.
-/

/-- Embedding of `bevy_util::source_file::SourceFile` (fields used by
`bindgen.rs`: `file_path`, `module_name`, `content`). -/
structure SourceFile where
  file_path : String
  module_name : Option String
  content : String
deriving DecidableEq, Repr

/-- Embedding of `SourceWithFullDependenciesResult`: one entry point together
with its topologically ordered list of dependencies. -/
structure SourceWithFullDependenciesResult where
  source_file : SourceFile
  full_dependencies : List SourceFile
deriving DecidableEq, Repr

/-- A call issued to the external shader-composition capability
(`naga_oil::compose::Composer`).  `addComposableModule` records the arguments
of `Composer::add_composable_module`; `makeNagaModule` those of
`Composer::make_naga_module`. -/
inductive ComposerCall where
  | addComposableModule (file_path : String) (content : String) (as_name : Option String)
  | makeNagaModule (file_path : String) (content : String)
deriving DecidableEq, Repr

/-- Whether a composer call is the final entry submission. -/
def ComposerCall.isMake : ComposerCall → Bool
  | .makeNagaModule _ _ => true
  | _ => false

/-- Embedding of `naga_oil::compose::ComposerError`: an opaque inner payload
together with the diagnostic that `err.emit_to_string(&composer)` renders. -/
structure ComposerError where
  inner : String
  rendered : String
deriving DecidableEq, Repr

/-- The behaviour of the external composer: given the calls already issued to this
composer instance and the next call, either succeed (`none`) or fail with a
`ComposerError`.  The history argument lets the response depend on composer
state, as it does for the real `naga_oil` composer. -/
def ComposerOracle : Type := List ComposerCall → ComposerCall → Option ComposerError

/-- Embedding of `CreateModuleError` from `lib.rs`. -/
inductive CreateModuleError where
  | nonConsecutiveBindGroups
  | duplicateBinding (binding : Nat)
deriving DecidableEq, Repr

/-- Embedding of the `WgslBindgenError` variants reachable from the embedded
functions: `OutputFileNotSpecified`, `NagaModuleComposeError` (fields `entry`,
`inner`, `msg`) and the `From<CreateModuleError>` conversion. -/
inductive WgslBindgenError where
  | outputFileNotSpecified
  | nagaModuleComposeError (entry : String) (inner : String) (msg : String)
  | createModuleError (err : CreateModuleError)
deriving DecidableEq, Repr

/-- The composed module handed back by `Composer::make_naga_module`, recorded
as the `(source, file_path)` pair that was submitted to produce it (the
`naga::Module` itself is opaque to this core). -/
structure NagaModule where
  source : String
  file_path : String
deriving DecidableEq, Repr

/-- Modelled from the spec: `SourceFilePath::file_prefix` lives in the
`bevy_util` module, which is not under `src/`; it only supplies the module
name stem of a path and no claim constrains it. -/
def filePrefixOf (path : String) : String :=
  (((path.splitOn "/").getLastD "").splitOn ".").headD ""

/-- Embedding of `WgslEntryResult` from `lib.rs`. -/
structure WgslEntryResult where
  mod_name : String
  naga_module : NagaModule
  source_including_deps : SourceWithFullDependenciesResult
deriving DecidableEq, Repr

/-- The `add_composable_module` call issued for a dependency
(`bindgen.rs` lines 97-108). -/
def depCallOf (d : SourceFile) : ComposerCall :=
  .addComposableModule d.file_path d.content d.module_name

/-- The `make_naga_module` call issued for the entry file itself
(`bindgen.rs` lines 110-116). -/
def makeCallOf (s : SourceFile) : ComposerCall :=
  .makeNagaModule s.file_path s.content

/-- The dependency-registration loop of `generate_naga_module_for_entry`
(`bindgen.rs` lines 97-108): issue one `add_composable_module` call per
dependency, in order, bailing out at the first failure.  Returns the calls
issued and the first error, if any. -/
def registerDependencies (oracle : ComposerOracle) :
    List ComposerCall → List SourceFile → List ComposerCall × Option ComposerError
  | _, [] => ([], none)
  | hist, d :: rest =>
    let c := depCallOf d
    match oracle hist c with
    | some err => ([c], some err)
    | none =>
      let r := registerDependencies oracle (hist ++ [c]) rest
      (c :: r.1, r.2)

/-- Embedding of `WGSLBindgen::generate_naga_module_for_entry`
(`bindgen.rs` lines 75-123): register every dependency, then submit the entry
file; any composer failure is wrapped by `map_err` into
`NagaModuleComposeError` carrying the file path of the entry and the rendered
diagnostic.  The first component is the trace of composer calls issued. -/
def generate_naga_module_for_entry (oracle : ComposerOracle)
    (entry : SourceWithFullDependenciesResult) :
    List ComposerCall × Except WgslBindgenError WgslEntryResult :=
  let reg := registerDependencies oracle [] entry.full_dependencies
  match reg.2 with
  | some err =>
    (reg.1, .error (.nagaModuleComposeError entry.source_file.file_path
      err.inner err.rendered))
  | none =>
    let mc := makeCallOf entry.source_file
    match oracle reg.1 mc with
    | some err =>
      (reg.1 ++ [mc], .error (.nagaModuleComposeError entry.source_file.file_path
        err.inner err.rendered))
    | none =>
      (reg.1 ++ [mc],
        .ok { mod_name := filePrefixOf entry.source_file.file_path
              naga_module := { source := entry.source_file.content
                               file_path := entry.source_file.file_path }
              source_including_deps := entry })

/-- The entry-point walk of `generate_output` (`bindgen.rs` lines 141-146):
`map` over the entries followed by `collect::<Result<Vec<_>, _>>()`, which
consumes entries lazily and stops at the first error.  Each entry gets a
fresh `Composer`, modelled by pairing each entry with its own oracle.
Returns the per-entry call traces (one per entry actually processed) and
either the collected results or the first error. -/
def compose_all : List (ComposerOracle × SourceWithFullDependenciesResult) →
    List (List ComposerCall) × Except WgslBindgenError (List WgslEntryResult)
  | [] => ([], .ok [])
  | (o, entry) :: rest =>
    let r := generate_naga_module_for_entry o entry
    match r.2 with
    | .error e => ([r.1], .error e)
    | .ok res =>
      let rr := compose_all rest
      match rr.2 with
      | .error e => (r.1 :: rr.1, .error e)
      | .ok ress => (r.1 :: rr.1, .ok (res :: ress))

/-- Embedding of `WGSLBindgen::get_contents_hash` (`bindgen.rs` lines 62-73).
A `blake3::Hasher` fed a sequence of `update` calls and finalized is the hash
of the concatenation of the updates, so the function is the external hash
`blake3Hex` (abstracted as a parameter, since `blake3` is an external crate)
applied to `format!("{:?}", options)` bytes, then `CARGO_PKG_VERSION` bytes,
then the `content` of every parsed file, concatenated in order.  Bytes are
modelled as the character data of the strings. -/
def get_contents_hash (blake3Hex : List Char → String)
    (optionsDebug pkgVer : String) (parsedFiles : List SourceFile) : String :=
  blake3Hex (optionsDebug.data ++ pkgVer.data ++
    (parsedFiles.map (fun f => f.content.data)).flatten)

/-- The relevant fields of `WgslBindgenOption` read by the embedded functions
(the full option type lives in a module not under `src/`; `bindgen.rs` reads
these three fields plus the ones abstracted elsewhere). -/
structure WgslBindgenOption where
  output : Option String
  skip_hash_check : Bool
  skip_header_comments : Bool
deriving DecidableEq, Repr

/-- Split a character list at newline characters; `n` newlines yield `n + 1`
pieces, newline characters excluded. -/
def splitOnNl : List Char → List (List Char)
  | [] => [[]]
  | c :: rest =>
    if c = '\n' then [] :: splitOnNl rest
    else
      match splitOnNl rest with
      | [] => [[c]]
      | l :: ls => (c :: l) :: ls

/-- Drop one trailing carriage return, as Rust `str::lines` does for lines
terminated by `\r\n`. -/
def stripCR (l : List Char) : List Char :=
  if l.getLast? = some '\r' then l.dropLast else l

/-- Embedding of Rust `str::lines`: split at `\n`, strip a trailing `\r` from
every piece that was terminated by a `\n`, and drop the final piece when the
string ends with a newline (or is empty). -/
def rustLines (s : String) : List String :=
  let parts := splitOnNl s.data
  let front := (parts.dropLast.map stripCR).map String.mk
  match parts.getLast? with
  | some [] => front
  | some last => front ++ [String.mk last]
  | none => front

/-- Whether `p` is a prefix of `s`, by character data (Rust
`str::starts_with`). -/
def rustStartsWith (s p : String) : Bool :=
  p.data.isPrefixOf s.data

/-- The marker search of `WGSLBindgen::generate` (`bindgen.rs` lines
166-169): the first line of the previous output starting with
`"// SourceHash:"`, defaulting to the empty string. -/
def old_hash_comment (old_content : String) : String :=
  ((rustLines old_content).find? (fun l => rustStartsWith l "// SourceHash:")).getD ""

/-- The `is_hash_changed` closure of `WGSLBindgen::generate` (`bindgen.rs`
lines 171-172). -/
def is_hash_changed (old_content content_hash : String) : Bool :=
  decide (old_hash_comment old_content ≠ "// SourceHash: " ++ content_hash)

/-- Embedding of `WGSLBindgen::header_texts` (`bindgen.rs` lines 125-137);
`PKG_NAME` is the crate name `wgsl_bindgen`, `PKG_VER` stays a parameter. -/
def header_texts (options : WgslBindgenOption) (pkgVer content_hash : String) : String :=
  if options.skip_header_comments then ""
  else
    "// File automatically generated by wgsl_bindgen^\n" ++
    "//\n" ++
    ("// ^ wgsl_bindgen version " ++ pkgVer ++ "\n") ++
    "// Changes made to this file will not be saved.\n" ++
    ("// SourceHash: " ++ content_hash ++ "\n") ++
    "\n"

/-- Embedding of `WGSLBindgen::generate_output` (`bindgen.rs` lines 139-149):
compose every entry point, then hand the collected results to
`create_rust_bindings`.  The internals of `create_rust_bindings` are
token-stream emission over external crates (`quote`, `syn`, `prettyplease`)
and modules not under `src/`, so its outcome is abstracted as the
`createBindings` parameter; a `CreateModuleError` is converted into
`WgslBindgenError` as by the `?` operator. -/
def generate_output
    (entries : List (ComposerOracle × SourceWithFullDependenciesResult))
    (createBindings : List WgslEntryResult → Except CreateModuleError String) :
    List (List ComposerCall) × Except WgslBindgenError String :=
  let r := compose_all entries
  match r.2 with
  | .error e => (r.1, .error e)
  | .ok ress =>
    match createBindings ress with
    | .error e => (r.1, .error (.createModuleError e))
    | .ok s => (r.1, .ok s)

/-- Embedding of `WGSLBindgen::generate_string` (`bindgen.rs` lines 151-155):
the header followed by the generated output. -/
def generate_string (options : WgslBindgenOption) (pkgVer content_hash : String)
    (entries : List (ComposerOracle × SourceWithFullDependenciesResult))
    (createBindings : List WgslEntryResult → Except CreateModuleError String) :
    List (List ComposerCall) × Except WgslBindgenError String :=
  let r := generate_output entries createBindings
  match r.2 with
  | .error e => (r.1, .error e)
  | .ok out => (r.1, .ok (header_texts options pkgVer content_hash ++ out))

/-- The observable effects of one `WGSLBindgen::generate` call:
whether the previous output file was read, the composer calls issued, and
the content written to the output file, if any. -/
structure GenTrace where
  read_old_output : Bool
  compose_traces : List (List ComposerCall)
  written : Option String
deriving DecidableEq, Repr

/-- Embedding of `WGSLBindgen::generate` (`bindgen.rs` lines 157-180).
`old_file` is the state of the output file (`none` when
`std::fs::read_to_string` fails, which the code maps to the empty string);
`content_hash` is the `self.content_hash` field computed at construction.
Writing is modelled as recording the written content in the trace (the
file-system write itself is an external effect). -/
def generate (options : WgslBindgenOption) (pkgVer content_hash : String)
    (entries : List (ComposerOracle × SourceWithFullDependenciesResult))
    (createBindings : List WgslEntryResult → Except CreateModuleError String)
    (old_file : Option String) : GenTrace × Except WgslBindgenError Unit :=
  match options.output with
  | none =>
    ({ read_old_output := false, compose_traces := [], written := none },
      .error .outputFileNotSpecified)
  | some _ =>
    let old_content := old_file.getD ""
    if options.skip_hash_check || is_hash_changed old_content content_hash then
      let r := generate_string options pkgVer content_hash entries createBindings
      match r.2 with
      | .error e =>
        ({ read_old_output := true, compose_traces := r.1, written := none }, .error e)
      | .ok content =>
        ({ read_old_output := true, compose_traces := r.1, written := some content },
          .ok ())
    else
      ({ read_old_output := true, compose_traces := [], written := none }, .ok ())

/-- The fixed-form fingerprint marker line. -/
def markerLine (hash : String) : String :=
  "// SourceHash: " ++ hash ++ "\n"

/-- The output `s` embeds the fingerprint marker line for `hash`: the marker
line occurs contiguously in `s`. -/
@[reducible] def hasSourceHashLine (s hash : String) : Prop :=
  (markerLine hash).data <:+: s.data

/-- A bind-group/binding coordinate pair of a resource binding in a composed
module. -/
structure ResourceBinding where
  group : Nat
  binding : Nat
deriving DecidableEq, Repr

/-- First binding index that repeats within its group, scanning in order. -/
def findDuplicateBinding : List ResourceBinding → List ResourceBinding → Option Nat
  | _, [] => none
  | seen, rb :: rest =>
    if seen.any (fun s => s.group == rb.group && s.binding == rb.binding) then some rb.binding
    else findDuplicateBinding (seen ++ [rb]) rest

/-- Modelled from the spec: `get_bind_group_data` lives in
`generate/bind_group.rs`, which is not under `src/` (only the
`CreateModuleError` declaration, its caller `create_rust_bindings` and the
repository tests are).  Per spec 4.6: collect the distinct bind-group
indices, sort ascending, and require the sequence to equal `0, 1, ..., k-1`,
failing with `NonConsecutiveBindGroups` otherwise; within each group require
binding indices to be pairwise distinct, the first repeated index failing
with `DuplicateBinding`. -/
def get_bind_group_data (bindings : List ResourceBinding) :
    Except CreateModuleError Unit :=
  let groups := ((bindings.map (fun b => b.group)).dedup).insertionSort (· ≤ ·)
  if groups ≠ List.range groups.length then .error .nonConsecutiveBindGroups
  else
    match findDuplicateBinding [] bindings with
    | some b => .error (.duplicateBinding b)
    | none => .ok ()

/-- The oracle accepted every call of `calls`, issued in order starting from
history `hist`. -/
def oracleOkOn (oracle : ComposerOracle) : List ComposerCall → List ComposerCall → Prop
  | _, [] => True
  | hist, c :: cs => oracle hist c = none ∧ oracleOkOn oracle (hist ++ [c]) cs

/-- A composer that accepts every call. -/
def okOracle : ComposerOracle := fun _ _ => none

/-- A composer that accepts every module registration but rejects the final
entry submission. -/
def failMakeOracle : ComposerOracle := fun _ c =>
  if c.isMake then some { inner := "E", rendered := "err" } else none

/-- Concrete shader sources for witnesses. -/
def depFile : SourceFile :=
  { file_path := "util.wgsl", module_name := some "util", content := "fn helper()" }

def entryFile : SourceFile :=
  { file_path := "a.wgsl", module_name := none, content := "fn main()" }

def sampleEntry : SourceWithFullDependenciesResult :=
  { source_file := entryFile, full_dependencies := [depFile] }

def emptyEntry : SourceWithFullDependenciesResult :=
  { source_file := entryFile, full_dependencies := [] }

def entryFileB : SourceFile :=
  { file_path := "b.wgsl", module_name := none, content := "fn other()" }

def emptyEntryB : SourceWithFullDependenciesResult :=
  { source_file := entryFileB, full_dependencies := [] }

def entryFileC : SourceFile :=
  { file_path := "c.wgsl", module_name := none, content := "fn third()" }

def emptyEntryC : SourceWithFullDependenciesResult :=
  { source_file := entryFileC, full_dependencies := [] }

/-- A stand-in for the `create_rust_bindings` outcome in concrete runs. -/
def sampleCB : List WgslEntryResult → Except CreateModuleError String :=
  fun _ => .ok "#![allow(unused)]\n"

/-- Options with an output path and the unconditional-rebuild flag set. -/
def cxOptions : WgslBindgenOption :=
  { output := some "shader.rs", skip_hash_check := true, skip_header_comments := false }

/-- Options with an output path and header comments suppressed. -/
def noHeaderOptions : WgslBindgenOption :=
  { output := some "shader.rs", skip_hash_check := true, skip_header_comments := true }

/-- Options with an output path, hash checking enabled, headers emitted. -/
def plainOptions : WgslBindgenOption :=
  { output := some "shader.rs", skip_hash_check := false, skip_header_comments := false }

/-- Options with no output path configured. -/
def noOutputOptions : WgslBindgenOption :=
  { output := none, skip_hash_check := false, skip_header_comments := false }

/-- The concrete generated string of the marker witness run. -/
def markerWitnessOut : String :=
  header_texts plainOptions "0.1.0" "h" ++ "#![allow(unused)]\n"



/-! ## Helper lemmas -/

theorem registerDependencies_cons_some (o : ComposerOracle) (hist : List ComposerCall)
    (d : SourceFile) (rest : List SourceFile) (err : ComposerError)
    (ho : o hist (depCallOf d) = some err) :
    registerDependencies o hist (d :: rest) = ([depCallOf d], some err) := by
  simp [registerDependencies, ho]

theorem registerDependencies_cons_none (o : ComposerOracle) (hist : List ComposerCall)
    (d : SourceFile) (rest : List SourceFile)
    (ho : o hist (depCallOf d) = none) :
    registerDependencies o hist (d :: rest) =
      (depCallOf d :: (registerDependencies o (hist ++ [depCallOf d]) rest).1,
        (registerDependencies o (hist ++ [depCallOf d]) rest).2) := by
  simp [registerDependencies, ho]

theorem registerDependencies_none_trace (o : ComposerOracle) :
    ∀ (deps : List SourceFile) (hist : List ComposerCall),
      (registerDependencies o hist deps).2 = none →
      (registerDependencies o hist deps).1 = deps.map depCallOf := by
  intro deps
  induction deps with
  | nil => intro hist _; rfl
  | cons d rest ih =>
    intro hist h
    cases ho : o hist (depCallOf d) with
    | some err => rw [registerDependencies_cons_some o hist d rest err ho] at h; simp at h
    | none =>
      rw [registerDependencies_cons_none o hist d rest ho] at h ⊢
      simp only [List.map_cons, List.cons.injEq, true_and]
      exact ih (hist ++ [depCallOf d]) h

theorem registerDependencies_not_make (o : ComposerOracle) :
    ∀ (deps : List SourceFile) (hist : List ComposerCall),
      ∀ c ∈ (registerDependencies o hist deps).1, c.isMake = false := by
  intro deps
  induction deps with
  | nil => intro hist c hc; simp [registerDependencies] at hc
  | cons d rest ih =>
    intro hist c hc
    cases ho : o hist (depCallOf d) with
    | some err =>
      rw [registerDependencies_cons_some o hist d rest err ho] at hc
      simp only [List.mem_singleton] at hc
      subst hc; rfl
    | none =>
      rw [registerDependencies_cons_none o hist d rest ho] at hc
      simp only [List.mem_cons] at hc
      rcases hc with hc | hc
      · subst hc; rfl
      · exact ih (hist ++ [depCallOf d]) c hc

theorem registerDependencies_okOn (o : ComposerOracle) :
    ∀ (deps : List SourceFile) (hist : List ComposerCall),
      (registerDependencies o hist deps).2 = none →
      oracleOkOn o hist (registerDependencies o hist deps).1 := by
  intro deps
  induction deps with
  | nil => intro hist _; trivial
  | cons d rest ih =>
    intro hist h
    cases ho : o hist (depCallOf d) with
    | some err => rw [registerDependencies_cons_some o hist d rest err ho] at h; simp at h
    | none =>
      rw [registerDependencies_cons_none o hist d rest ho] at h ⊢
      exact ⟨ho, ih (hist ++ [depCallOf d]) h⟩

theorem oracleOkOn_snoc (o : ComposerOracle) :
    ∀ (calls : List ComposerCall) (hist : List ComposerCall) (c : ComposerCall),
      oracleOkOn o hist calls → o (hist ++ calls) c = none →
      oracleOkOn o hist (calls ++ [c]) := by
  intro calls
  induction calls with
  | nil => intro hist c _ hc; exact ⟨by simpa using hc, trivial⟩
  | cons a rest ih =>
    intro hist c hok hc
    obtain ⟨ha, hrest⟩ := hok
    refine ⟨ha, ih (hist ++ [a]) c hrest ?_⟩
    simpa [List.append_assoc] using hc

theorem generate_entry_eq_reg_some (oracle : ComposerOracle)
    (entry : SourceWithFullDependenciesResult) (err : ComposerError)
    (h : (registerDependencies oracle [] entry.full_dependencies).2 = some err) :
    generate_naga_module_for_entry oracle entry =
      ((registerDependencies oracle [] entry.full_dependencies).1,
        .error (.nagaModuleComposeError entry.source_file.file_path
          err.inner err.rendered)) := by
  simp [generate_naga_module_for_entry, h]

theorem generate_entry_eq_make_some (oracle : ComposerOracle)
    (entry : SourceWithFullDependenciesResult) (err : ComposerError)
    (h1 : (registerDependencies oracle [] entry.full_dependencies).2 = none)
    (h2 : oracle (registerDependencies oracle [] entry.full_dependencies).1
      (makeCallOf entry.source_file) = some err) :
    generate_naga_module_for_entry oracle entry =
      ((registerDependencies oracle [] entry.full_dependencies).1 ++
        [makeCallOf entry.source_file],
        .error (.nagaModuleComposeError entry.source_file.file_path
          err.inner err.rendered)) := by
  simp [generate_naga_module_for_entry, h1, h2]

theorem generate_entry_eq_ok (oracle : ComposerOracle)
    (entry : SourceWithFullDependenciesResult)
    (h1 : (registerDependencies oracle [] entry.full_dependencies).2 = none)
    (h2 : oracle (registerDependencies oracle [] entry.full_dependencies).1
      (makeCallOf entry.source_file) = none) :
    generate_naga_module_for_entry oracle entry =
      ((registerDependencies oracle [] entry.full_dependencies).1 ++
        [makeCallOf entry.source_file],
        .ok { mod_name := filePrefixOf entry.source_file.file_path
              naga_module := { source := entry.source_file.content
                               file_path := entry.source_file.file_path }
              source_including_deps := entry }) := by
  simp [generate_naga_module_for_entry, h1, h2]

/-! ## Claim C3 -/

/-- Claim C3: for every entry point, composition registers each dependency
with the composer in the order of the dependency list, every registration
happens strictly before the entry submission, and on success the entry file
is submitted exactly once, after all dependencies, as the final call. -/
theorem compose_registers_deps_before_entry (oracle : ComposerOracle)
    (entry : SourceWithFullDependenciesResult) :
    ((generate_naga_module_for_entry oracle entry).2.isOk = true →
      (generate_naga_module_for_entry oracle entry).1 =
        entry.full_dependencies.map depCallOf ++ [makeCallOf entry.source_file]) ∧
    (∀ c ∈ (generate_naga_module_for_entry oracle entry).1.dropLast,
      c.isMake = false) ∧
    (generate_naga_module_for_entry oracle entry).1.countP
      (fun c => c.isMake) ≤ 1 := by
  cases hreg : (registerDependencies oracle [] entry.full_dependencies).2 with
  | some err =>
    rw [generate_entry_eq_reg_some oracle entry err hreg]
    refine ⟨by intro habs; simp [Except.isOk, Except.toBool] at habs, ?_, ?_⟩
    · intro c hc
      exact registerDependencies_not_make oracle entry.full_dependencies [] c
        ((List.dropLast_sublist _).subset hc)
    · have h0 : (registerDependencies oracle [] entry.full_dependencies).1.countP
          (fun c => c.isMake) = 0 :=
        List.countP_eq_zero.mpr (by
          intro c hc
          simp [registerDependencies_not_make oracle entry.full_dependencies [] c hc])
      simp [h0]
  | none =>
    cases hmk : oracle (registerDependencies oracle [] entry.full_dependencies).1
        (makeCallOf entry.source_file) with
    | some err =>
      rw [generate_entry_eq_make_some oracle entry err hreg hmk]
      refine ⟨by intro habs; simp [Except.isOk, Except.toBool] at habs, ?_, ?_⟩
      · intro c hc
        rw [List.dropLast_concat] at hc
        exact registerDependencies_not_make oracle entry.full_dependencies [] c hc
      · have h0 : (registerDependencies oracle [] entry.full_dependencies).1.countP
            (fun c => c.isMake) = 0 :=
          List.countP_eq_zero.mpr (by
            intro c hc
            simp [registerDependencies_not_make oracle entry.full_dependencies [] c hc])
        rw [List.countP_append, h0, Nat.zero_add]
        simp [List.countP_cons, List.countP_nil, makeCallOf, ComposerCall.isMake]
    | none =>
      rw [generate_entry_eq_ok oracle entry hreg hmk]
      refine ⟨?_, ?_, ?_⟩
      · intro _
        rw [registerDependencies_none_trace oracle entry.full_dependencies [] hreg]
      · intro c hc
        rw [List.dropLast_concat] at hc
        exact registerDependencies_not_make oracle entry.full_dependencies [] c hc
      · have h0 : (registerDependencies oracle [] entry.full_dependencies).1.countP
            (fun c => c.isMake) = 0 :=
          List.countP_eq_zero.mpr (by
            intro c hc
            simp [registerDependencies_not_make oracle entry.full_dependencies [] c hc])
        rw [List.countP_append, h0, Nat.zero_add]
        simp [List.countP_cons, List.countP_nil, makeCallOf, ComposerCall.isMake]

/-- Witness for C3 at a concrete composer run with one dependency. -/
theorem compose_registers_deps_before_entry_witness :
    (generate_naga_module_for_entry okOracle sampleEntry).1 =
      sampleEntry.full_dependencies.map depCallOf ++ [makeCallOf sampleEntry.source_file] :=
  (compose_registers_deps_before_entry okOracle sampleEntry).1 rfl

/-! ## Claim C8 -/

/-- Claim C8: every failure of the shader-composition capability, whether
during dependency registration or final entry submission, is surfaced as a
`NagaModuleComposeError` carrying the file path of the entry point and the
rendered diagnostic of the failing composer error; and a successful result
means every composer call issued was accepted, so no composition failure is
silently swallowed. -/
theorem compose_errors_carry_entry_identity (oracle : ComposerOracle)
    (entry : SourceWithFullDependenciesResult) :
    (∀ e, (generate_naga_module_for_entry oracle entry).2 = .error e →
      ∃ cerr : ComposerError,
        e = .nagaModuleComposeError entry.source_file.file_path
          cerr.inner cerr.rendered) ∧
    ((generate_naga_module_for_entry oracle entry).2.isOk = true →
      oracleOkOn oracle [] (generate_naga_module_for_entry oracle entry).1) := by
  cases hreg : (registerDependencies oracle [] entry.full_dependencies).2 with
  | some err =>
    rw [generate_entry_eq_reg_some oracle entry err hreg]
    refine ⟨?_, by intro habs; simp [Except.isOk, Except.toBool] at habs⟩
    intro e he
    simp only [Except.error.injEq] at he
    exact ⟨err, he.symm⟩
  | none =>
    cases hmk : oracle (registerDependencies oracle [] entry.full_dependencies).1
        (makeCallOf entry.source_file) with
    | some err =>
      rw [generate_entry_eq_make_some oracle entry err hreg hmk]
      refine ⟨?_, by intro habs; simp [Except.isOk, Except.toBool] at habs⟩
      intro e he
      simp only [Except.error.injEq] at he
      exact ⟨err, he.symm⟩
    | none =>
      rw [generate_entry_eq_ok oracle entry hreg hmk]
      refine ⟨by intro e he; simp at he, ?_⟩
      intro _
      refine oracleOkOn_snoc oracle
        (registerDependencies oracle [] entry.full_dependencies).1 []
        (makeCallOf entry.source_file)
        (registerDependencies_okOn oracle entry.full_dependencies [] hreg) ?_
      simpa using hmk

/-- Witness for C8 at a concrete composer run whose entry submission fails. -/
theorem compose_errors_carry_entry_identity_witness :
    ∃ cerr : ComposerError,
      (WgslBindgenError.nagaModuleComposeError "a.wgsl" "E" "err" : WgslBindgenError) =
        .nagaModuleComposeError sampleEntry.source_file.file_path
          cerr.inner cerr.rendered :=
  (compose_errors_carry_entry_identity failMakeOracle sampleEntry).1
    (.nagaModuleComposeError "a.wgsl" "E" "err") rfl

/-! ## Claim C9 -/

/-- Claim C9: for an entry point with an empty dependency list, composition
performs no dependency registration at all, submits only the own content of
the entry file, and a produced result carries that content as its module and
an empty dependency list. -/
theorem compose_empty_deps (oracle : ComposerOracle)
    (entry : SourceWithFullDependenciesResult)
    (hdeps : entry.full_dependencies = []) :
    (generate_naga_module_for_entry oracle entry).1 =
      [makeCallOf entry.source_file] ∧
    (∀ r, (generate_naga_module_for_entry oracle entry).2 = .ok r →
      r.naga_module = { source := entry.source_file.content
                        file_path := entry.source_file.file_path } ∧
      r.source_including_deps.full_dependencies = []) := by
  have hreg : registerDependencies oracle [] entry.full_dependencies = ([], none) := by
    rw [hdeps]; rfl
  have hreg2 : (registerDependencies oracle [] entry.full_dependencies).2 = none := by
    rw [hreg]
  cases hmk : oracle (registerDependencies oracle [] entry.full_dependencies).1
      (makeCallOf entry.source_file) with
  | some err =>
    rw [generate_entry_eq_make_some oracle entry err hreg2 hmk, hreg]
    exact ⟨rfl, by intro r hr; simp at hr⟩
  | none =>
    rw [generate_entry_eq_ok oracle entry hreg2 hmk, hreg]
    refine ⟨rfl, ?_⟩
    intro r hr
    simp only [Except.ok.injEq] at hr
    subst hr
    exact ⟨rfl, hdeps⟩

/-- Witness for C9 at a concrete dependency-free entry. -/
theorem compose_empty_deps_witness :
    (generate_naga_module_for_entry okOracle emptyEntry).1 =
      [makeCallOf emptyEntry.source_file] :=
  (compose_empty_deps okOracle emptyEntry rfl).1

/-! ## Claim C6 -/

theorem compose_all_cons_error (o : ComposerOracle)
    (entry : SourceWithFullDependenciesResult)
    (rest : List (ComposerOracle × SourceWithFullDependenciesResult))
    (e : WgslBindgenError)
    (h : (generate_naga_module_for_entry o entry).2 = .error e) :
    compose_all ((o, entry) :: rest) =
      ([(generate_naga_module_for_entry o entry).1], .error e) := by
  simp [compose_all, h]

theorem compose_all_cons_ok (o : ComposerOracle)
    (entry : SourceWithFullDependenciesResult)
    (rest : List (ComposerOracle × SourceWithFullDependenciesResult))
    (res : WgslEntryResult)
    (h : (generate_naga_module_for_entry o entry).2 = .ok res) :
    compose_all ((o, entry) :: rest) =
      ((generate_naga_module_for_entry o entry).1 :: (compose_all rest).1,
        match (compose_all rest).2 with
        | .error e => .error e
        | .ok ress => .ok (res :: ress)) := by
  simp only [compose_all, h]
  cases (compose_all rest).2 <;> rfl

theorem compose_all_fail_fast :
    ∀ (i : Nat) (entries : List (ComposerOracle × SourceWithFullDependenciesResult))
      (hi : i < entries.length) (e : WgslBindgenError),
      (∀ j (hj : j < i),
        ((generate_naga_module_for_entry (entries.get ⟨j, hj.trans hi⟩).1
          (entries.get ⟨j, hj.trans hi⟩).2).2).isOk = true) →
      ((generate_naga_module_for_entry (entries.get ⟨i, hi⟩).1
        (entries.get ⟨i, hi⟩).2).2 = .error e) →
      (compose_all entries).2 = .error e ∧ (compose_all entries).1.length = i + 1 := by
  intro i
  induction i with
  | zero =>
    intro entries hi e _ herr
    match entries, hi with
    | (o, entry) :: rest, _ =>
      rw [compose_all_cons_error o entry rest e herr]
      exact ⟨rfl, rfl⟩
  | succ k ih =>
    intro entries hi e hok herr
    match entries, hi with
    | (o, entry) :: rest, hi =>
      have h0 : ((generate_naga_module_for_entry o entry).2).isOk = true :=
        hok 0 (Nat.succ_pos k)
      cases hres : (generate_naga_module_for_entry o entry).2 with
      | error e0 => rw [hres] at h0; simp [Except.isOk, Except.toBool] at h0
      | ok res =>
        have hk : k < rest.length := Nat.lt_of_succ_lt_succ hi
        have hrec := ih rest hk e
          (fun j hj => hok (j + 1) (Nat.succ_lt_succ hj))
          herr
        rw [compose_all_cons_ok o entry rest res hres]
        refine ⟨?_, ?_⟩
        · show (match (compose_all rest).2 with
            | .error e2 => (.error e2 : Except WgslBindgenError (List WgslEntryResult))
            | .ok ress => .ok (res :: ress)) = .error e
          rw [hrec.1]
        · show (compose_all rest).1.length + 1 = k + 1 + 1
          rw [hrec.2]

/-- Claim C6: the entry-point walk of `generate_output` is fail-fast.  If the
entries before position `i` compose successfully and entry `i` fails, the
overall result is exactly that first error, and composition is attempted for
entries `0..i` only (one composer trace per attempted entry), so later
entries are never composed and no error aggregation happens. -/
theorem generate_output_fail_fast
    (entries : List (ComposerOracle × SourceWithFullDependenciesResult))
    (createBindings : List WgslEntryResult → Except CreateModuleError String)
    (i : Nat) (hi : i < entries.length) (e : WgslBindgenError)
    (hok : ∀ j (hj : j < i),
      ((generate_naga_module_for_entry (entries.get ⟨j, hj.trans hi⟩).1
        (entries.get ⟨j, hj.trans hi⟩).2).2).isOk = true)
    (herr : (generate_naga_module_for_entry (entries.get ⟨i, hi⟩).1
      (entries.get ⟨i, hi⟩).2).2 = .error e) :
    (generate_output entries createBindings).2 = .error e ∧
    (generate_output entries createBindings).1.length = i + 1 := by
  have h := compose_all_fail_fast i entries hi e hok herr
  simp only [generate_output]
  rw [h.1]
  exact ⟨rfl, h.2⟩

/-- Witness for C6: three entries, the second fails, the third is never
composed (two traces only) and its error is the overall result. -/
theorem generate_output_fail_fast_witness :
    (generate_output [(okOracle, emptyEntry), (failMakeOracle, emptyEntryB),
      (okOracle, emptyEntryC)] sampleCB).2 =
        .error (.nagaModuleComposeError "b.wgsl" "E" "err") ∧
    (generate_output [(okOracle, emptyEntry), (failMakeOracle, emptyEntryB),
      (okOracle, emptyEntryC)] sampleCB).1.length = 2 :=
  generate_output_fail_fast
    [(okOracle, emptyEntry), (failMakeOracle, emptyEntryB), (okOracle, emptyEntryC)]
    sampleCB 1 (by decide) (.nagaModuleComposeError "b.wgsl" "E" "err")
    (by intro j hj; have hj0 : j = 0 := by omega
        subst hj0; rfl)
    rfl

/-! ## Claim C4 -/

/-- Claim C4: the fingerprint computation is deterministic.  It is a pure
function of the configuration debug serialization, the tool version string
and the sequence of parsed file contents: two runs agreeing on those inputs
produce identical fingerprints, even when file paths or declared module
names differ, since `get_contents_hash` reads only the `content` field. -/
theorem get_contents_hash_deterministic (blake3Hex : List Char → String)
    (optionsDebug pkgVer : String) (files1 files2 : List SourceFile)
    (h : files1.map SourceFile.content = files2.map SourceFile.content) :
    get_contents_hash blake3Hex optionsDebug pkgVer files1 =
    get_contents_hash blake3Hex optionsDebug pkgVer files2 := by
  unfold get_contents_hash
  have h2 : files1.map (fun f => f.content.data) =
      files2.map (fun f => f.content.data) := by
    have h3 := congrArg (List.map String.data) h
    simpa [List.map_map, Function.comp] using h3
  rw [h2]

/-- Witness for C4: identical contents under different paths and module
names hash identically. -/
theorem get_contents_hash_deterministic_witness :
    get_contents_hash String.mk "cfg" "0.1.0"
      [{ file_path := "a.wgsl", module_name := none, content := "fn a()" }] =
    get_contents_hash String.mk "cfg" "0.1.0"
      [{ file_path := "b/c.wgsl", module_name := some "c", content := "fn a()" }] :=
  get_contents_hash_deterministic String.mk "cfg" "0.1.0"
    [{ file_path := "a.wgsl", module_name := none, content := "fn a()" }]
    [{ file_path := "b/c.wgsl", module_name := some "c", content := "fn a()" }] rfl

/-! ## Claim C5 -/

/-- Claim C5: the fingerprint is sensitive to file content.  With the
external hash injective on the byte streams it is fed, changing the content
of any one reachable file while keeping every other input fixed changes the
fingerprint, because the byte stream handed to the hash changes. -/
theorem get_contents_hash_sensitive (blake3Hex : List Char → String)
    (hinj : Function.Injective blake3Hex)
    (optionsDebug pkgVer : String) (pre post : List SourceFile)
    (f g : SourceFile) (hne : f.content ≠ g.content) :
    get_contents_hash blake3Hex optionsDebug pkgVer (pre ++ f :: post) ≠
    get_contents_hash blake3Hex optionsDebug pkgVer (pre ++ g :: post) := by
  intro h
  apply hne
  have h2 := hinj h
  simp only [List.map_append, List.map_cons, List.flatten_append, List.flatten_cons,
    List.append_assoc] at h2
  have h3 := List.append_cancel_left (List.append_cancel_left (List.append_cancel_left h2))
  exact String.ext (List.append_cancel_right h3)

/-- Witness for C5: a one-byte content change at an injective hash changes
the fingerprint. -/
theorem get_contents_hash_sensitive_witness :
    get_contents_hash String.mk "cfg" "0.1.0"
      [{ file_path := "a.wgsl", module_name := none, content := "fn a()" }] ≠
    get_contents_hash String.mk "cfg" "0.1.0"
      [{ file_path := "a.wgsl", module_name := none, content := "fn b()" }] :=
  get_contents_hash_sensitive String.mk
    (fun _ _ hmk => congrArg String.data hmk)
    "cfg" "0.1.0" [] []
    { file_path := "a.wgsl", module_name := none, content := "fn a()" }
    { file_path := "a.wgsl", module_name := none, content := "fn b()" }
    (by decide)

/-! ## Claim C7 -/

/-- Claim C7: structural validation of resource bindings accepts the
bind-group set containing groups 0 and 1; rejects the set with groups 0, 1
and 3 (a gap) with the non-consecutive-groups error; and rejects two
bindings both numbered 2 within group 0 with the duplicate-binding error
carrying binding index 2 — matching the repository tests
`create_shader_module_consecutive_bind_groups`,
`create_shader_module_non_consecutive_bind_groups` and
`create_shader_module_repeated_bindings`. -/
theorem bind_group_validation_cases :
    get_bind_group_data [{ group := 0, binding := 0 }, { group := 1, binding := 0 }] =
      .ok () ∧
    get_bind_group_data [{ group := 0, binding := 0 }, { group := 1, binding := 0 },
      { group := 3, binding := 0 }] = .error .nonConsecutiveBindGroups ∧
    get_bind_group_data [{ group := 0, binding := 2 }, { group := 0, binding := 2 }] =
      .error (.duplicateBinding 2) :=
  ⟨rfl, rfl, rfl⟩

/-! ## Claim C10 -/

/-- Claim C10: with no output path configured, `generate` returns
`OutputFileNotSpecified` before reading any previous output, composing any
module, or writing anything — the effect trace is empty. -/
theorem generate_no_output_path_error (options : WgslBindgenOption)
    (pkgVer content_hash : String)
    (entries : List (ComposerOracle × SourceWithFullDependenciesResult))
    (createBindings : List WgslEntryResult → Except CreateModuleError String)
    (old_file : Option String) (h : options.output = none) :
    generate options pkgVer content_hash entries createBindings old_file =
      ({ read_old_output := false, compose_traces := [], written := none },
        .error .outputFileNotSpecified) := by
  simp [generate, h]

/-- Witness for C10 at concrete inputs. -/
theorem generate_no_output_path_error_witness :
    generate noOutputOptions "0.1.0" "h" [(okOracle, emptyEntry)] sampleCB none =
      ({ read_old_output := false, compose_traces := [], written := none },
        .error .outputFileNotSpecified) :=
  generate_no_output_path_error noOutputOptions "0.1.0" "h"
    [(okOracle, emptyEntry)] sampleCB none rfl

/-! ## Claim C1 -/

theorem generate_some_skip (options : WgslBindgenOption)
    (pkgVer content_hash : String)
    (entries : List (ComposerOracle × SourceWithFullDependenciesResult))
    (createBindings : List WgslEntryResult → Except CreateModuleError String)
    (old_file : Option String) (out : String)
    (hout : options.output = some out)
    (hcond : (options.skip_hash_check ||
      is_hash_changed (old_file.getD "") content_hash) = false) :
    generate options pkgVer content_hash entries createBindings old_file =
      ({ read_old_output := true, compose_traces := [], written := none }, .ok ()) := by
  simp [generate, hout, hcond]

theorem generate_some_gen_error (options : WgslBindgenOption)
    (pkgVer content_hash : String)
    (entries : List (ComposerOracle × SourceWithFullDependenciesResult))
    (createBindings : List WgslEntryResult → Except CreateModuleError String)
    (old_file : Option String) (out : String) (e : WgslBindgenError)
    (hout : options.output = some out)
    (hcond : (options.skip_hash_check ||
      is_hash_changed (old_file.getD "") content_hash) = true)
    (hgs : (generate_string options pkgVer content_hash entries createBindings).2 =
      .error e) :
    generate options pkgVer content_hash entries createBindings old_file =
      ({ read_old_output := true
         compose_traces :=
           (generate_string options pkgVer content_hash entries createBindings).1
         written := none }, .error e) := by
  simp only [generate, hout, hcond, if_true]
  rw [hgs]

theorem generate_some_gen_ok (options : WgslBindgenOption)
    (pkgVer content_hash : String)
    (entries : List (ComposerOracle × SourceWithFullDependenciesResult))
    (createBindings : List WgslEntryResult → Except CreateModuleError String)
    (old_file : Option String) (out content : String)
    (hout : options.output = some out)
    (hcond : (options.skip_hash_check ||
      is_hash_changed (old_file.getD "") content_hash) = true)
    (hgs : (generate_string options pkgVer content_hash entries createBindings).2 =
      .ok content) :
    generate options pkgVer content_hash entries createBindings old_file =
      ({ read_old_output := true
         compose_traces :=
           (generate_string options pkgVer content_hash entries createBindings).1
         written := some content }, .ok ()) := by
  simp only [generate, hout, hcond, if_true]
  rw [hgs]

/-- Claim C1 (amended): with an output path configured, when neither the
unconditional-rebuild flag is set nor the recorded marker differs from the
fresh fingerprint, `generate` performs no composition, writes nothing, and
returns success; and the output file is rewritten exactly when that
condition holds and the output string is generated successfully. -/
theorem generate_rewrites_iff (options : WgslBindgenOption)
    (pkgVer content_hash : String)
    (entries : List (ComposerOracle × SourceWithFullDependenciesResult))
    (createBindings : List WgslEntryResult → Except CreateModuleError String)
    (old_file : Option String) (out : String)
    (hout : options.output = some out) :
    ((options.skip_hash_check ||
        is_hash_changed (old_file.getD "") content_hash) = false →
      generate options pkgVer content_hash entries createBindings old_file =
        ({ read_old_output := true, compose_traces := [], written := none },
          .ok ())) ∧
    ((generate options pkgVer content_hash entries createBindings old_file).1.written.isSome
        = true ↔
      ((options.skip_hash_check ||
        is_hash_changed (old_file.getD "") content_hash) = true ∧
        (generate options pkgVer content_hash entries createBindings old_file).2.isOk
          = true)) := by
  cases hcond : (options.skip_hash_check ||
      is_hash_changed (old_file.getD "") content_hash) with
  | false =>
    refine ⟨fun _ => generate_some_skip options pkgVer content_hash entries
      createBindings old_file out hout hcond, ?_⟩
    rw [generate_some_skip options pkgVer content_hash entries
      createBindings old_file out hout hcond]
    simp
  | true =>
    refine ⟨fun habs => by simp [hcond] at habs, ?_⟩
    cases hgs : (generate_string options pkgVer content_hash entries createBindings).2 with
    | error e =>
      rw [generate_some_gen_error options pkgVer content_hash entries
        createBindings old_file out e hout hcond hgs]
      simp [Except.isOk, Except.toBool]
    | ok content =>
      rw [generate_some_gen_ok options pkgVer content_hash entries
        createBindings old_file out content hout hcond hgs]
      simp [Except.isOk, Except.toBool]

/-- Witness for C1 (amended): a previous output whose recorded marker equals
the fresh fingerprint makes `generate` skip composition entirely and write
nothing, returning success, even though the configured entry would fail to
compose. -/
theorem generate_rewrites_iff_witness :
    generate plainOptions "0.1.0" "h" [(failMakeOracle, sampleEntry)] sampleCB
      (some "// SourceHash: h") =
      ({ read_old_output := true, compose_traces := [], written := none }, .ok ()) :=
  (generate_rewrites_iff plainOptions "0.1.0" "h" [(failMakeOracle, sampleEntry)]
    sampleCB (some "// SourceHash: h") "shader.rs" rfl).1 (by decide)

/-- Counterexample to C1 as stated: the unconditional-rebuild flag is set,
so the claimed iff demands a rewrite, yet composition fails and the output
file is not written — the write happens only when generation also
succeeds. -/
theorem generate_write_skipped_on_compose_failure :
    cxOptions.skip_hash_check = true ∧
    (generate cxOptions "0.1.0" "h" [(failMakeOracle, emptyEntry)] sampleCB
      none).1.written = none ∧
    (generate cxOptions "0.1.0" "h" [(failMakeOracle, emptyEntry)] sampleCB none).2 =
      .error (.nagaModuleComposeError "a.wgsl" "E" "err") :=
  ⟨rfl, rfl, rfl⟩

/-! ## Claim C2 -/

/-- Claim C2 (amended): when header comments are not suppressed, every
successful `generate_string` output embeds the fingerprint marker line
`"// SourceHash: <fingerprint>"` for the content hash computed at
construction. -/
theorem generate_string_embeds_source_hash_marker (options : WgslBindgenOption)
    (pkgVer content_hash : String)
    (entries : List (ComposerOracle × SourceWithFullDependenciesResult))
    (createBindings : List WgslEntryResult → Except CreateModuleError String)
    (s : String)
    (hskip : options.skip_header_comments = false)
    (hok : (generate_string options pkgVer content_hash entries createBindings).2 =
      .ok s) :
    hasSourceHashLine s content_hash := by
  simp only [generate_string] at hok
  cases hgo : (generate_output entries createBindings).2 with
  | error e => rw [hgo] at hok; simp at hok
  | ok out =>
    rw [hgo] at hok
    simp only [Except.ok.injEq] at hok
    subst hok
    unfold hasSourceHashLine markerLine header_texts
    rw [hskip]
    simp only [Bool.false_eq_true, if_false]
    refine ⟨("// File automatically generated by wgsl_bindgen^\n" ++ "//\n" ++
      ("// ^ wgsl_bindgen version " ++ pkgVer ++ "\n") ++
      "// Changes made to this file will not be saved.\n").data,
      ("\n" ++ out).data, ?_⟩
    simp [String.data_append, List.append_assoc]

/-- Witness for C2 (amended): a concrete successful run with headers on
embeds the marker line. -/
theorem generate_string_embeds_marker_witness :
    (generate_string plainOptions "0.1.0" "h" [] sampleCB).2 = .ok markerWitnessOut ∧
    hasSourceHashLine markerWitnessOut "h" :=
  ⟨rfl, generate_string_embeds_source_hash_marker plainOptions "0.1.0" "h" [] sampleCB
    markerWitnessOut rfl rfl⟩

/-- Counterexample to C2 as stated: with header comments suppressed
(`skip_header_comments`), a successful generation produces an output with no
`"// SourceHash:"` marker line at all. -/
theorem generate_string_no_marker_when_headers_skipped :
    noHeaderOptions.skip_header_comments = true ∧
    (generate_string noHeaderOptions "0.1.0" "h" [] sampleCB).2 =
      .ok "#![allow(unused)]\n" ∧
    ¬ hasSourceHashLine "#![allow(unused)]\n" "h" :=
  ⟨rfl, rfl, by decide⟩
